import Mathlib

/-
Verification of the session/role-gated API layer of the farming web application
(app.py, models/models.py, config.py).

The Python code is shallowly embedded as executable Lean definitions:
the relational store is a pair of lists, request handlers are pure functions
from request data and store state to a response and a new state, and the
external imagery and persistence collaborators are oracles passed in as
explicit parameters describing the outcome of the one call the handler makes.
-/

set_option maxHeartbeats 1000000

/-- Model of Python str.strip applied to a string: drop leading and trailing
whitespace characters.  The source handlers apply .strip() to the submitted
username before any comparison (app.py lines 223, 236, 256). -/
def pyStrip (s : String) : String :=
  ⟨((s.data.dropWhile Char.isWhitespace).reverse.dropWhile Char.isWhitespace).reverse⟩

/-- Model of the werkzeug salted password hash (an external library used at
app.py lines 226 and 244).  A hash value is the pair of the salt drawn at
hashing time and the hashed password; check compares the stored password
component against the candidate, which models an ideal collision-free salted
hash: check_password_hash (generate_password_hash salt p) q is true exactly
when p = q. -/
structure PwHash where
  salt : Nat
  pwd : String
deriving DecidableEq

/-- werkzeug.security.generate_password_hash: salt the password and hash it. -/
def generate_password_hash (salt : Nat) (password : String) : PwHash :=
  ⟨salt, password⟩

/-- werkzeug.security.check_password_hash: a candidate password matches the
stored hash exactly when it equals the password that was hashed. -/
def check_password_hash (h : PwHash) (password : String) : Bool :=
  h.pwd == password

/-- models/models.py class User: id (integer primary key), username (unique),
password (salted hash), role ("farmer" or "admin"). -/
structure User where
  id : Nat
  username : String
  password : PwHash
  role : String
deriving DecidableEq

/-- models/models.py class IoTReading: id (integer primary key), timestamp
(server-assigned at insert, modelled as an abstract Nat clock value), and six
float sensor fields, modelled as rationals. -/
structure IoTReading where
  id : Nat
  timestamp : Nat
  cap_soil_pct : Rat
  res_soil_pct : Rat
  rain_pct : Rat
  water_level_pct : Rat
  temperature_c : Rat
  humidity_pct : Rat
deriving DecidableEq

/-- The relational store: the two tables of models/models.py plus the
auto-increment counters the database assigns primary keys from. -/
structure DB where
  users : List User
  readings : List IoTReading
  nextUid : Nat
  nextRid : Nat
deriving DecidableEq

/-- The store as created by db.create_all(): both tables empty,
auto-increment counters at 1. -/
def initDB : DB := ⟨[], [], 1, 1⟩

/-- app.py line 203: hard-coded admin username. -/
def ADMIN_USERNAME : String := "admin"

/-- app.py line 204: hard-coded admin password. -/
def ADMIN_PASSWORD : String := "admin123"

/-- A session principal: either a persisted farmer row (flask_login logs in a
User model object) or the transient FakeAdmin object built in admin_login
(app.py lines 260 - 268), which is not stored in any table. -/
inductive Principal where
  | farmer (u : User)
  | admin
deriving DecidableEq

/-- The role attribute of the current user: the row value for a farmer, the
fixed string "admin" for the FakeAdmin object. -/
def Principal.role : Principal → String
  | .farmer u => u.role
  | .admin => "admin"

/-- The username attribute of the current user. -/
def Principal.username : Principal → String
  | .farmer u => u.username
  | .admin => ADMIN_USERNAME

/-- get_id, the identity token flask_login stores in the session:
str(id) for a database user (UserMixin), the string "admin" for FakeAdmin
(app.py lines 266 - 267). -/
def Principal.get_id : Principal → String
  | .farmer u => toString u.id
  | .admin => "admin"

/-- Outcome of a login-style POST handler: either a principal is logged in
(login_user followed by a redirect) or a flash message is shown. -/
inductive AuthOutcome where
  | success (p : Principal)
  | failure (msg : String)
deriving DecidableEq

/-- True exactly when the outcome logged a principal in. -/
def AuthOutcome.isSuccess : AuthOutcome → Bool
  | .success _ => true
  | .failure _ => false

/-- app.py login (lines 220 - 231), POST branch: strip the username, fetch
the first User row with that username, and log it in exactly when the row
exists, the password matches its stored hash, and its role is "farmer";
otherwise flash one fixed generic message. -/
def login (st : DB) (username password : String) : AuthOutcome :=
  let uname := pyStrip username
  match st.users.find? (fun u => u.username == uname) with
  | some u =>
    if check_password_hash u.password password && (u.role == "farmer") then
      .success (.farmer u)
    else
      .failure "Invalid username or password (farmer only)."
  | none => .failure "Invalid username or password (farmer only)."

/-- app.py admin_login (lines 252 - 272), POST branch: strip the username,
compare against the hard-coded pair, and on a match log in the transient
FakeAdmin principal; no table is read or written. -/
def admin_login (username password : String) : AuthOutcome :=
  if (pyStrip username == ADMIN_USERNAME) && (password == ADMIN_PASSWORD) then
    .success .admin
  else
    .failure "Invalid admin credentials."

/-- Outcome of the register POST handler (app.py lines 233 - 250): a
conflict flash, a validation flash, or a created flash with a redirect. -/
inductive RegResult where
  | conflict (msg : String)
  | validation (msg : String)
  | created (msg : String)
deriving DecidableEq

/-- app.py register (lines 233 - 250), POST branch: strip the username;
if a row with that username exists flash a conflict; else if username or
password is empty flash a validation error; otherwise insert one row with the
stripped username, a fresh salted hash of the password, and role "farmer".
The salt drawn by the hash is passed explicitly. -/
def register (salt : Nat) (username password : String) (st : DB) : RegResult × DB :=
  let uname := pyStrip username
  if st.users.any (fun u => u.username == uname) then
    (.conflict "Username already exists!", st)
  else if (uname == "") || (password == "") then
    (.validation "Username and password required.", st)
  else
    let u : User := ⟨st.nextUid, uname, generate_password_hash salt password, "farmer"⟩
    (.created "Account created successfully. Login as farmer.",
      { st with users := st.users ++ [u], nextUid := st.nextUid + 1 })

/-- Model of Python int(s) on a string as used by load_user (app.py line 49):
optional surrounding whitespace, an optional sign, then decimal digits;
anything else raises, which the caller turns into None.  Exotic accepted
forms of Python int such as underscores between digits or non-ASCII digits
are not modelled; no input the program itself stores in a session uses them. -/
def pyInt? (s : String) : Option Int :=
  let cs := (pyStrip s).data
  let digitsVal : List Char → Nat :=
    fun ds => ds.foldl (fun a c => a * 10 + (c.toNat - 48)) 0
  match cs with
  | '-' :: rest =>
    if (!rest.isEmpty) && rest.all Char.isDigit then some (-(digitsVal rest : Int)) else none
  | '+' :: rest =>
    if (!rest.isEmpty) && rest.all Char.isDigit then some ((digitsVal rest : Int)) else none
  | rest =>
    if (!rest.isEmpty) && rest.all Char.isDigit then some ((digitsVal rest : Int)) else none

/-- app.py load_user (lines 45 - 52): try User.query.get(int(uid)); any
failure, including int("admin") raising, returns None.  User.query.get by
primary key is the first row whose id equals the parsed integer. -/
def load_user (st : DB) (uid : String) : Option User :=
  match pyInt? uid with
  | none => none
  | some n => st.users.find? (fun u => ((u.id : Int) == n))

/-- Response of a dashboard route: the login_required redirect for an
unauthenticated request, a flash-and-redirect denial, or the rendered page
(the admin page receives the full list of User rows, app.py line 298). -/
inductive DashResp where
  | authRedirect
  | denied (msg : String)
  | page (users : List User)
deriving DecidableEq

/-- app.py admin_dashboard (lines 289 - 299): login_required rejects an
unauthenticated request; an authenticated principal is rejected when its role
attribute is not "admin" and its username is not the hard-coded admin name;
otherwise the page is rendered with every User row. -/
def admin_dashboard (cur : Option Principal) (st : DB) : DashResp :=
  match cur with
  | none => .authRedirect
  | some p =>
    if (p.role != "admin") && (p.username != ADMIN_USERNAME) then
      .denied "Admin access required."
    else
      .page st.users

/-- A JSON value as delivered by request.get_json: null, boolean, number
(modelled as a rational), string, array, or object. -/
inductive JVal where
  | null
  | jbool (b : Bool)
  | num (q : Rat)
  | jstr (s : String)
  | arr (elems : List JVal)
  | obj (fields : List (String × JVal))

/-- A JSON object body: its fields in order.  Python dict keys are unique;
lookup takes the first binding. -/
def JObj := List (String × JVal)

/-- dict.get: the value of the first binding of the key, if any. -/
def lookupJ (fields : List (String × JVal)) (k : String) : Option JVal :=
  (fields.find? (fun kv => kv.1 == k)).map Prod.snd

/-- Python truthiness of a JSON value: None, False, zero, and empty
containers are falsy, everything else truthy. -/
def isTruthy : JVal → Bool
  | .null => false
  | .jbool b => b
  | .num q => q != 0
  | .jstr s => s != ""
  | .arr l => !l.isEmpty
  | .obj l => !l.isEmpty

/-- Digits of a decimal literal read as a natural number. -/
def digitsVal (ds : List Char) : Nat :=
  ds.foldl (fun a c => a * 10 + (c.toNat - 48)) 0

/-- An unsigned Python float literal: digits, optionally with a decimal point,
at least one digit on one side of the point.  Exponents and the inf/nan forms
accepted by Python float are not modelled; no claim depends on them. -/
def parseUnsigned? (cs : List Char) : Option Rat :=
  match cs.splitOn '.' with
  | [ds] =>
    if (!ds.isEmpty) && ds.all Char.isDigit then some ((digitsVal ds : Rat)) else none
  | [ds, fs] =>
    if ds.all Char.isDigit && fs.all Char.isDigit && ((!ds.isEmpty) || (!fs.isEmpty)) then
      some ((digitsVal ds : Rat) + (digitsVal fs : Rat) / ((10 : Rat) ^ fs.length))
    else none
  | _ => none

/-- Python float(s) on a string: strip whitespace, optional sign, then an
unsigned float literal; anything else raises ValueError. -/
def pyFloatStr? (s : String) : Option Rat :=
  match (pyStrip s).data with
  | '-' :: rest => (parseUnsigned? rest).map (fun q => -q)
  | '+' :: rest => parseUnsigned? rest
  | cs => parseUnsigned? cs

/-- Python float(v) on a JSON value: numbers pass through, booleans become
0 or 1, numeric strings parse, everything else raises (modelled as error with
the CPython message text). -/
def pyFloat : JVal → Except String Rat
  | .null => .error "float() argument must be a string or a real number, not NoneType"
  | .jbool b => .ok (if b then 1 else 0)
  | .num q => .ok q
  | .jstr s =>
    match pyFloatStr? s with
    | some q => .ok q
    | none => .error ("could not convert string to float: " ++ s)
  | .arr _ => .error "float() argument must be a string or a real number, not list"
  | .obj _ => .error "float() argument must be a string or a real number, not dict"

/-- One sensor field of the upload body, app.py lines 346 - 351:
float(data.get(k) or 0.0) - a missing or falsy field becomes 0.0, a truthy
one is coerced by float, which may raise. -/
def coerceField (data : List (String × JVal)) (k : String) : Except String Rat :=
  match lookupJ data k with
  | none => .ok 0
  | some v => if isTruthy v then pyFloat v else .ok 0

/-- The six sensor fields coerced in the order the IoTReading constructor
arguments are evaluated (app.py lines 346 - 351); the first failing coercion
raises. -/
def coerceSix (data : List (String × JVal)) :
    Except String (Rat × Rat × Rat × Rat × Rat × Rat) := do
  let a ← coerceField data "cap_soil_pct"
  let b ← coerceField data "res_soil_pct"
  let c ← coerceField data "rain_pct"
  let d ← coerceField data "water_level_pct"
  let e ← coerceField data "temperature_c"
  let f ← coerceField data "humidity_pct"
  return (a, b, c, d, e, f)

/-- app.py line 342: data.get("api_key") != IOT_API_KEY, negated.  The
configured secret is a string, so only an equal JSON string compares equal. -/
def apiKeyOk (data : List (String × JVal)) (cfgKey : String) : Bool :=
  match lookupJ data "api_key" with
  | some (.jstr s) => s == cfgKey
  | _ => false

/-- A JSON HTTP response: status code and body object. -/
structure JResp where
  status : Nat
  body : List (String × JVal)

/-- app.py api_iot_upload (lines 337 - 358).  The request body is None when
missing or unparseable; persistErr is the outcome of the db.session.commit
call (some message when the store raises); now is the server clock value the
store assigns to the timestamp column. -/
def api_iot_upload (cfgKey : String) (persistErr : Option String) (now : Nat)
    (reqBody : Option (List (String × JVal))) (st : DB) : JResp × DB :=
  match reqBody with
  | none => (⟨400, [("ok", .jbool false), ("error", .jstr "no json")]⟩, st)
  | some data =>
    if !isTruthy (.obj data) then
      (⟨400, [("ok", .jbool false), ("error", .jstr "no json")]⟩, st)
    else if !apiKeyOk data cfgKey then
      (⟨403, [("ok", .jbool false), ("error", .jstr "invalid api_key")]⟩, st)
    else
      match coerceSix data with
      | .error e => (⟨500, [("ok", .jbool false), ("error", .jstr e)]⟩, st)
      | .ok (a, b, c, d, e, f) =>
        match persistErr with
        | some msg => (⟨500, [("ok", .jbool false), ("error", .jstr msg)]⟩, st)
        | none =>
          let r : IoTReading := ⟨st.nextRid, now, a, b, c, d, e, f⟩
          (⟨200, [("ok", .jbool true), ("id", .num ((r.id : Int) : Rat))]⟩,
            { st with readings := st.readings ++ [r], nextRid := st.nextRid + 1 })

/-- datetime.isoformat on the abstract model clock, as an injective textual
rendering of the timestamp value. -/
def isoformat (t : Nat) : String :=
  "iso(" ++ toString t ++ ")"

/-- IoTReading.query.order_by(timestamp desc).first(): the reading with the
maximal timestamp, the earlier-inserted one among equal timestamps (the
relative order of equal keys is not fixed by SQL; no claim depends on it). -/
def latestReading : List IoTReading → Option IoTReading
  | [] => none
  | r :: rs =>
    match latestReading rs with
    | none => some r
    | some m => if m.timestamp ≤ r.timestamp then some r else some m

/-- The JSON body api_latest_iot serialises a reading to
(app.py lines 366 - 375). -/
def iotFields (r : IoTReading) : List (String × JVal) :=
  [("ok", .jbool true),
   ("timestamp", .jstr (isoformat r.timestamp)),
   ("cap_soil_pct", .num r.cap_soil_pct),
   ("res_soil_pct", .num r.res_soil_pct),
   ("rain_pct", .num r.rain_pct),
   ("water_level_pct", .num r.water_level_pct),
   ("temperature_c", .num r.temperature_c),
   ("humidity_pct", .num r.humidity_pct)]

/-- Response of an authenticated JSON route: the login_required redirect or a
JSON response. -/
inductive ApiResp where
  | authRedirect
  | jresp (r : JResp)

/-- app.py api_latest_iot (lines 360 - 375): login_required, then 404 when no
reading exists, else the fields and ISO timestamp of the most recent one. -/
def api_latest_iot (cur : Option Principal) (st : DB) : ApiResp :=
  match cur with
  | none => .authRedirect
  | some _ =>
    match latestReading st.readings with
    | none => .jresp ⟨404, [("ok", .jbool false), ("error", .jstr "no readings")]⟩
    | some r => .jresp ⟨200, iotFields r⟩

/-- Oracle for the one round of Earth Engine and folium calls a handler makes:
whether init_ee succeeded (app.py line 76), whether folium imported, the
outcome of get_latest_s2_image (None or a scene), and the outcomes of the
provider calls that actually hit the network - getMapId (an error raised, or
a tile url), the point reduceRegion getInfo (an error raised, or a possibly
null mean), and the polygon reduceRegion getInfo (an error raised, or the
statistics dictionary, whose values may be null). -/
structure Provider where
  ee_ok : Bool
  folium_ok : Bool
  scene : Option Nat
  mapIdResult : Except String String
  pointMeanResult : Except String (Option Rat)
  polyStatsResult : Except String (List (String × Option Rat))

/-- Model of a rendered folium map fragment for a location, optionally with a
tile overlay: an abstract renderable HTML string (folium is an external
library; only which fragment is produced matters to the claims). -/
def foliumHtml (lat lon : Rat) (tile : Option String) : String :=
  match tile with
  | none => "<div folium-map " ++ toString lat ++ " " ++ toString lon ++ "></div>"
  | some t =>
    "<div folium-map " ++ toString lat ++ " " ++ toString lon ++ " tiles " ++ t ++ "></div>"

/-- app.py get_true_color_map (lines 94 - 110): placeholder paragraph when EE
or folium is unavailable, a bare folium map when no scene was found, an error
paragraph when getMapId raises, otherwise the map with the tile layer. -/
def get_true_color_map (pv : Provider) (lat lon : Rat) : String :=
  if !(pv.ee_ok && pv.folium_ok) then
    "<p>True color map unavailable (EE/folium not installed).</p>"
  else
    match pv.scene with
    | none => foliumHtml lat lon none
    | some _ =>
      match pv.mapIdResult with
      | .error _ => "<p>True color map error.</p>"
      | .ok tile => foliumHtml lat lon (some tile)

/-- app.py get_point_ndvi (lines 112 - 134): returns the NDVI mean at the
point (or None) and a map fragment.  Every provider call that can raise is
wrapped in try/except: getMapId failure yields (None, error paragraph) and a
reduceRegion failure yields a None value with the map still rendered. -/
def get_point_ndvi (pv : Provider) (lat lon : Rat) : Option Rat × String :=
  if !(pv.ee_ok && pv.folium_ok) then
    (none, "<p>NDVI unavailable (EE/folium missing).</p>")
  else
    match pv.scene with
    | none => (none, "<p>No Sentinel-2 image.</p>")
    | some _ =>
      match pv.mapIdResult with
      | .error _ => (none, "<p>NDVI map error.</p>")
      | .ok tile =>
        let html := foliumHtml lat lon (some tile)
        match pv.pointMeanResult with
        | .error _ => (none, html)
        | .ok v => (v, html)

/-- The four statistics api_polygon_ndvi serialises (app.py lines 153 - 158),
each possibly null. -/
structure NdviStats where
  NDVI_min : Option Rat
  NDVI_max : Option Rat
  NDVI_mean : Option Rat
  NDVI_stdDev : Option Rat
deriving DecidableEq

/-- stats.get(k) on the getInfo dictionary: None when the key is missing or
its value is null. -/
def dgetStats (stats : List (String × Option Rat)) (k : String) : Option Rat :=
  match stats.find? (fun kv => kv.1 == k) with
  | none => none
  | some kv => kv.2

/-- app.py get_polygon_ndvi_stats (lines 136 - 159): None when EE is
unavailable or no scene was found; otherwise the reduceRegion getInfo call is
made with no surrounding try/except, so an error raised by the provider there
propagates out of the adapter (modelled as the error branch). -/
def get_polygon_ndvi_stats (pv : Provider) (coords : List (Rat × Rat)) :
    Except String (Option NdviStats) :=
  if !pv.ee_ok then .ok none
  else
    match pv.scene with
    | none => .ok none
    | some _ =>
      match pv.polyStatsResult with
      | .error err => .error err
      | .ok stats =>
        .ok (some ⟨dgetStats stats "NDVI_min", dgetStats stats "NDVI_max",
                   dgetStats stats "NDVI_mean", dgetStats stats "NDVI_stdDev"⟩)

/-- One request to the application, with every nondeterministic input the
handler consumes (salt drawn by hashing, provider oracle, server clock,
session principal reconstructed by flask_login) made explicit. -/
inductive Op where
  | opRegister (salt : Nat) (username password : String)
  | opLogin (username password : String)
  | opAdminLogin (username password : String)
  | opLogout
  | opHome
  | opFarmerDashboard (cur : Option Principal)
  | opAdminDashboard (cur : Option Principal)
  | opPointNdvi (pv : Provider) (lat lon : Rat)
  | opPolygonNdvi (pv : Provider) (coords : List (Rat × Rat))
  | opIotUpload (cfgKey : String) (persistErr : Option String) (now : Nat)
      (reqBody : Option (List (String × JVal)))
  | opLatestIot (cur : Option Principal)

/-- Effect of one request on the relational store.  Only register
(db.session.add of a User row, app.py lines 245 - 247) and api_iot_upload
(db.session.add of an IoTReading row, lines 352 - 354) write to the store;
login, admin_login, logout and the dashboards touch only the cookie session,
and the NDVI and latest-reading routes only read. -/
def applyOp (st : DB) : Op → DB
  | .opRegister salt u p => (register salt u p st).2
  | .opIotUpload cfgKey persistErr now reqBody =>
    (api_iot_upload cfgKey persistErr now reqBody st).2
  | _ => st

/-- The store after a sequence of requests starting from the freshly created
database. -/
def runOps (ops : List Op) : DB :=
  ops.foldl applyOp initDB

/-- find? by a key is deterministic on a list whose keys are pairwise
distinct: it returns exactly the member carrying the key. -/
lemma find?_key_eq_some {α β : Type} [BEq β] [LawfulBEq β] (f : α → β) (k : β)
    (l : List α) (hN : (l.map f).Nodup) (u : α) (hu : u ∈ l) (hk : f u = k) :
    l.find? (fun x => f x == k) = some u := by
  induction l with
  | nil => cases hu
  | cons x xs ih =>
    rcases List.mem_cons.mp hu with rfl | hu2
    · exact List.find?_cons_of_pos _ (by simp [hk])
    · rw [List.map_cons] at hN
      rcases List.nodup_cons.mp hN with ⟨hx, hxs⟩
      cases hfx : (f x == k) with
      | true =>
        exfalso
        apply hx
        rw [eq_of_beq hfx, ← hk]
        exact List.mem_map_of_mem f hu2
      | false =>
        rw [List.find?_cons_of_neg _ (by simp [hfx])]
        exact ih hxs hu2

/-- A reading returned by latestReading is a member of the table. -/
lemma latestReading_mem (rs : List IoTReading) (m : IoTReading)
    (h : latestReading rs = some m) : m ∈ rs := by
  induction rs generalizing m with
  | nil => simp [latestReading] at h
  | cons x xs ih =>
    cases hx : latestReading xs with
    | none =>
      simp only [latestReading, hx] at h
      cases h
      exact List.mem_cons_self x xs
    | some m2 =>
      simp only [latestReading, hx] at h
      by_cases hle : m2.timestamp ≤ x.timestamp
      · rw [if_pos hle] at h
        cases h
        exact List.mem_cons_self x xs
      · rw [if_neg hle] at h
        cases h
        exact List.mem_cons_of_mem x (ih _ hx)

/-- When one reading strictly dominates every other timestamp, latestReading
returns it. -/
lemma latestReading_unique_max (rs : List IoTReading) (r : IoTReading)
    (hm : r ∈ rs) (hmax : ∀ x ∈ rs, x = r ∨ x.timestamp < r.timestamp) :
    latestReading rs = some r := by
  induction rs with
  | nil => cases hm
  | cons x xs ih =>
    rcases List.mem_cons.mp hm with rfl | hmem
    · cases hx : latestReading xs with
      | none => simp [latestReading, hx]
      | some m =>
        rcases hmax m (List.mem_cons_of_mem _ (latestReading_mem xs m hx)) with rfl | hlt
        · simp [latestReading, hx]
        · simp [latestReading, hx, le_of_lt hlt]
    · have ih2 := ih hmem (fun y hy => hmax y (List.mem_cons_of_mem _ hy))
      rcases hmax x (List.mem_cons_self x xs) with rfl | hlt
      · simp [latestReading, ih2]
      · simp [latestReading, ih2, not_le.mpr hlt, le_of_lt hlt]

/-- api_iot_upload never touches the User table. -/
lemma api_iot_upload_users_eq (cfgKey : String) (persistErr : Option String)
    (now : Nat) (reqBody : Option (List (String × JVal))) (st : DB) :
    ((api_iot_upload cfgKey persistErr now reqBody st).2).users = st.users := by
  cases reqBody with
  | none => rfl
  | some data =>
    simp only [api_iot_upload]
    split
    · rfl
    · split
      · rfl
      · cases hc : coerceSix data with
        | error e => rfl
        | ok v =>
          obtain ⟨a, b, c, d, e, f⟩ := v
          cases persistErr with
          | none => rfl
          | some msg => rfl

/-- One request preserves the all-rows-are-farmers property of the User
table: the only handler that inserts a User row is register, and it always
inserts role "farmer". -/
lemma applyOp_role_farmer (st : DB) (op : Op)
    (h : ∀ u ∈ st.users, u.role = "farmer") :
    ∀ u ∈ (applyOp st op).users, u.role = "farmer" := by
  cases op with
  | opRegister salt un pw =>
    simp only [applyOp, register]
    split
    · exact h
    · split
      · exact h
      · intro u hu
        rcases List.mem_append.mp hu with hu1 | hu2
        · exact h u hu1
        · rcases List.mem_singleton.mp hu2 with rfl
          rfl
  | opIotUpload cfgKey persistErr now reqBody =>
    intro u hu
    rw [show applyOp st (.opIotUpload cfgKey persistErr now reqBody) =
      (api_iot_upload cfgKey persistErr now reqBody st).2 from rfl,
      api_iot_upload_users_eq] at hu
    exact h u hu
  | opLogin un pw => exact h
  | opAdminLogin un pw => exact h
  | opLogout => exact h
  | opHome => exact h
  | opFarmerDashboard cur => exact h
  | opAdminDashboard cur => exact h
  | opPointNdvi pv lat lon => exact h
  | opPolygonNdvi pv coords => exact h
  | opLatestIot cur => exact h

/-- The all-farmer invariant is preserved by any request sequence. -/
lemma foldl_role_farmer (ops : List Op) :
    ∀ st : DB, (∀ u ∈ st.users, u.role = "farmer") →
      ∀ u ∈ (ops.foldl applyOp st).users, u.role = "farmer" := by
  induction ops with
  | nil => intro st h; simpa using h
  | cons op rest ih =>
    intro st h
    simp only [List.foldl_cons]
    exact ih _ (applyOp_role_farmer st op h)

/-- Claim C3: starting from the empty store, after any sequence of the
application requests (register, login, admin login, logout, the dashboards,
and the API endpoints) every row of the User table has role "farmer"; no
request inserts a row with role "admin", so the admin identity never appears
in the persistence layer. -/
theorem runOps_users_all_farmer (ops : List Op) :
    ∀ u ∈ (runOps ops).users, u.role = "farmer" :=
  foldl_role_farmer ops initDB (fun u hu => absurd hu (by simp [initDB]))

/-- Witness for claim C3 at a concrete request sequence: after one
registration the one stored row indeed has role "farmer". -/
theorem runOps_users_all_farmer_witness :
    (⟨1, "bob", ⟨0, "pw"⟩, "farmer"⟩ : User).role = "farmer" :=
  runOps_users_all_farmer [Op.opRegister 0 "bob" "pw"]
    ⟨1, "bob", ⟨0, "pw"⟩, "farmer"⟩ (by decide)

/-- Claim C1 (amended): for every stored user table with unique usernames,
farmer login succeeds exactly when a User row whose username equals the
whitespace-stripped submitted username exists, the password matches that
row's stored salted hash, and the row's role is "farmer"; every failure
flashes the single generic message.  (The unamended claim also asserted that
the hard-coded admin credential pair never succeeds through this path; that
is refuted by a table holding a farmer row with username "admin" and a hash
of "admin123", see the counterexample theorem.) -/
theorem login_spec (st : DB) (username password : String)
    (hN : (st.users.map User.username).Nodup) :
    ((login st username password).isSuccess = true ↔
      ∃ u, u ∈ st.users ∧ u.username = pyStrip username ∧
        check_password_hash u.password password = true ∧ u.role = "farmer")
    ∧ (∀ msg, login st username password = .failure msg →
        msg = "Invalid username or password (farmer only).") := by
  cases hf : st.users.find? (fun x => x.username == pyStrip username) with
  | none =>
    have hlogin : login st username password =
        .failure "Invalid username or password (farmer only)." := by
      simp only [login, hf]
    rw [List.find?_eq_none] at hf
    constructor
    · rw [hlogin]
      simp only [AuthOutcome.isSuccess]
      apply iff_of_false (by simp)
      rintro ⟨u, hu, hname, -, -⟩
      exact absurd (by simpa using hname) (by simpa using hf u hu)
    · intro msg hmsg
      rw [hlogin] at hmsg
      cases hmsg
      rfl
  | some v =>
    have hv1 : v ∈ st.users := List.mem_of_find?_eq_some hf
    have hv2 : v.username = pyStrip username := by
      have := List.find?_some hf
      simpa using this
    cases hc : check_password_hash v.password password && (v.role == "farmer") with
    | true =>
      have hlogin : login st username password = .success (.farmer v) := by
        simp [login, hf, hc]
      have hc2 : check_password_hash v.password password = true ∧ v.role = "farmer" := by
        simpa using hc
      constructor
      · rw [hlogin]
        simp only [AuthOutcome.isSuccess]
        exact iff_of_true trivial ⟨v, hv1, hv2, hc2.1, hc2.2⟩
      · intro msg hmsg
        rw [hlogin] at hmsg
        simp at hmsg
    | false =>
      have hlogin : login st username password =
          .failure "Invalid username or password (farmer only)." := by
        simp [login, hf, hc]
      constructor
      · rw [hlogin]
        simp only [AuthOutcome.isSuccess]
        apply iff_of_false (by simp)
        rintro ⟨u, hu, hname, hchk, hrole⟩
        have hfu : st.users.find? (fun x => x.username == pyStrip username) = some u :=
          find?_key_eq_some User.username (pyStrip username) st.users hN u hu hname
        rw [hf] at hfu
        cases hfu
        have htrue : (check_password_hash v.password password && (v.role == "farmer")) = true := by
          rw [hchk, hrole]
          decide
        rw [hc] at htrue
        cases htrue
      · intro msg hmsg
        rw [hlogin] at hmsg
        cases hmsg
        rfl

/-- Witness for claim C1 at a concrete table: a registered farmer logs in
with the matching password. -/
theorem login_spec_witness :
    (login (register 0 "alice" "pw" initDB).2 "alice" "pw").isSuccess = true :=
  (login_spec (register 0 "alice" "pw" initDB).2 "alice" "pw" (by decide)).1.mpr
    ⟨⟨1, "alice", ⟨0, "pw"⟩, "farmer"⟩, by decide, by decide, by decide, by decide⟩

/-- Counterexample refuting the unamended claim C1: after a farmer registers
with username "admin" and password "admin123", the hard-coded admin
credential pair does succeed through the farmer login path (logging in that
farmer row, whose role is "farmer", not the admin principal). -/
theorem login_admin_pair_counterexample :
    (login (register 0 "admin" "admin123" initDB).2 "admin" "admin123").isSuccess = true
    ∧ ((register 0 "admin" "admin123" initDB).2.users.map User.role) = ["farmer"] := by
  decide

/-- Claim C2 (amended): admin login succeeds exactly when the
whitespace-stripped username equals the fixed admin name and the password
equals the fixed admin password; on success the session principal's identity
token is the string "admin" and its role is "admin", and the User table is
neither read (admin_login takes no store argument) nor written (the store is
unchanged by the request); on any other input it fails with the fixed flash
message.  (The unamended claim required the raw pair to equal the fixed
pair; the stripping refutes that, see the counterexample theorem.) -/
theorem admin_login_spec (username password : String) :
    ((admin_login username password).isSuccess = true ↔
      (pyStrip username = ADMIN_USERNAME ∧ password = ADMIN_PASSWORD))
    ∧ (∀ q, admin_login username password = .success q →
        q.get_id = "admin" ∧ q.role = "admin")
    ∧ (∀ st : DB, applyOp st (.opAdminLogin username password) = st)
    ∧ (∀ msg, admin_login username password = .failure msg →
        msg = "Invalid admin credentials.") := by
  cases hb : (pyStrip username == ADMIN_USERNAME) && (password == ADMIN_PASSWORD) with
  | true =>
    have hlogin : admin_login username password = .success .admin := by
      simp [admin_login, hb]
    have hb2 : pyStrip username = ADMIN_USERNAME ∧ password = ADMIN_PASSWORD := by
      simpa using hb
    refine ⟨?_, ?_, ?_, ?_⟩
    · rw [hlogin]
      simp only [AuthOutcome.isSuccess]
      exact iff_of_true trivial hb2
    · intro q hq
      rw [hlogin] at hq
      cases hq
      exact ⟨rfl, rfl⟩
    · intro st
      rfl
    · intro msg hmsg
      rw [hlogin] at hmsg
      simp at hmsg
  | false =>
    have hlogin : admin_login username password = .failure "Invalid admin credentials." := by
      simp [admin_login, hb]
    refine ⟨?_, ?_, ?_, ?_⟩
    · rw [hlogin]
      simp only [AuthOutcome.isSuccess]
      apply iff_of_false (by simp)
      rintro ⟨h1, h2⟩
      have htrue : ((pyStrip username == ADMIN_USERNAME) && (password == ADMIN_PASSWORD)) = true := by
        rw [h1, h2]
        decide
      rw [hb] at htrue
      cases htrue
    · intro q hq
      rw [hlogin] at hq
      simp at hq
    · intro st
      rfl
    · intro msg hmsg
      rw [hlogin] at hmsg
      cases hmsg
      rfl

/-- Witness for claim C2: the exact hard-coded pair succeeds. -/
theorem admin_login_spec_witness :
    (admin_login "admin" "admin123").isSuccess = true :=
  (admin_login_spec "admin" "admin123").1.mpr ⟨by decide, rfl⟩

/-- Counterexample refuting the unamended claim C2: the pair with a leading
space on the username differs from the fixed credential pair, yet admin
login succeeds, because the handler strips the username first. -/
theorem admin_login_trim_counterexample :
    (admin_login " admin" "admin123").isSuccess = true
    ∧ (" admin", "admin123") ≠ (ADMIN_USERNAME, ADMIN_PASSWORD) := by
  decide

/-- Claim C4: the admin dashboard route rejects an unauthenticated request
through the login_required guard; an authenticated principal is served the
page (with every User row) exactly when its role attribute equals "admin" or
its username equals the fixed admin name, and any other authenticated
principal is redirected away with an error flash. -/
theorem admin_dashboard_spec (st : DB) (p : Principal) :
    (admin_dashboard none st = .authRedirect)
    ∧ (admin_dashboard (some p) st = .page st.users ↔
        (p.role = "admin" ∨ p.username = ADMIN_USERNAME))
    ∧ ((p.role ≠ "admin" ∧ p.username ≠ ADMIN_USERNAME) →
        admin_dashboard (some p) st = .denied "Admin access required.") := by
  refine ⟨rfl, ?_, ?_⟩
  · by_cases hr : p.role = "admin"
    · simp [admin_dashboard, hr]
    · by_cases hu : p.username = ADMIN_USERNAME
      · simp [admin_dashboard, hr, hu]
      · simp [admin_dashboard, hr, hu]
  · rintro ⟨hr, hu⟩
    simp [admin_dashboard, hr, hu]

/-- Witness for claim C4: the hard-coded admin principal is served the page. -/
theorem admin_dashboard_spec_witness :
    admin_dashboard (some Principal.admin) initDB = DashResp.page initDB.users :=
  (admin_dashboard_spec initDB Principal.admin).2.1.mpr (Or.inl rfl)

/-- Claim C5 (amended): for every table state and input pair, register flashes
the conflict error when a row whose username equals the whitespace-stripped
submitted username already exists (checked first, so a second registration of
the same username always yields the conflict), flashes the validation error
when the stripped username or the password is empty, and otherwise inserts
exactly one new row holding the stripped username, a salted hash of the
password, and role "farmer"; on either failure the table is unchanged.
(The unamended claim keyed both checks to the raw submitted username; the
stripping refutes that, see the counterexample theorem.) -/
theorem register_spec (salt : Nat) (username password : String) (st : DB) :
    ((∃ u, u ∈ st.users ∧ u.username = pyStrip username) →
      register salt username password st = (.conflict "Username already exists!", st))
    ∧ ((¬ ∃ u, u ∈ st.users ∧ u.username = pyStrip username) →
        (pyStrip username = "" ∨ password = "") →
        register salt username password st =
          (.validation "Username and password required.", st))
    ∧ ((¬ ∃ u, u ∈ st.users ∧ u.username = pyStrip username) →
        pyStrip username ≠ "" → password ≠ "" →
        register salt username password st =
          (.created "Account created successfully. Login as farmer.",
            { st with
              users := st.users ++ [⟨st.nextUid, pyStrip username,
                generate_password_hash salt password, "farmer"⟩],
              nextUid := st.nextUid + 1 }))
    ∧ (∀ st2, register salt username password st =
          (.created "Account created successfully. Login as farmer.", st2) →
        ∀ salt2 password2, (register salt2 username password2 st2).1 =
          .conflict "Username already exists!") := by
  have hany : st.users.any (fun u => u.username == pyStrip username) = true ↔
      ∃ u, u ∈ st.users ∧ u.username = pyStrip username := by
    simp [List.any_eq_true]
  refine ⟨?_, ?_, ?_, ?_⟩
  · intro hex
    have h1 : st.users.any (fun u => u.username == pyStrip username) = true := hany.mpr hex
    simp [register, h1]
  · intro hnex hempty
    have h1 : st.users.any (fun u => u.username == pyStrip username) = false :=
      Bool.eq_false_iff.mpr (fun h => hnex (hany.mp h))
    have h2 : ((pyStrip username == "") || (password == "")) = true := by
      rcases hempty with h | h <;> simp [h]
    simp [register, h1, h2]
  · intro hnex hne1 hne2
    have h1 : st.users.any (fun u => u.username == pyStrip username) = false :=
      Bool.eq_false_iff.mpr (fun h => hnex (hany.mp h))
    have h2 : ((pyStrip username == "") || (password == "")) = false := by
      simp [hne1, hne2]
    simp [register, h1, h2]
  · intro st2 heq salt2 password2
    cases h1 : st.users.any (fun u => u.username == pyStrip username) with
    | true => simp [register, h1] at heq
    | false =>
      cases h2 : ((pyStrip username == "") || (password == "")) with
      | true => simp [register, h1, h2] at heq
      | false =>
        simp [register, h1, h2] at heq
        have hmem : (⟨st.nextUid, pyStrip username,
            generate_password_hash salt password, "farmer"⟩ : User) ∈ st2.users := by
          rw [← heq]
          simp
        have h3 : st2.users.any (fun u => u.username == pyStrip username) = true :=
          List.any_eq_true.mpr
            ⟨⟨st.nextUid, pyStrip username, generate_password_hash salt password, "farmer"⟩,
              hmem, by simp⟩
        simp [register, h3]

/-- Witness for claim C5: registering with an empty password fails with the
validation flash and leaves the store unchanged. -/
theorem register_spec_witness :
    register 1 "bob" "" initDB = (.validation "Username and password required.", initDB) :=
  (register_spec 1 "bob" "" initDB).2.1 (by decide) (Or.inr rfl)

/-- Counterexample refuting the unamended claim C5: with a row "alice" stored
and the input username " alice " (no row with that raw username exists, and
neither field is empty) the unamended claim requires an insert, but register
flashes the conflict error, because the handler strips the username first. -/
theorem register_trim_counterexample :
    (¬ ∃ u ∈ (register 0 "alice" "pw" initDB).2.users, u.username = " alice ")
    ∧ (" alice " : String) ≠ ""
    ∧ ("secret" : String) ≠ ""
    ∧ register 1 " alice " "secret" (register 0 "alice" "pw" initDB).2 =
        (.conflict "Username already exists!", (register 0 "alice" "pw" initDB).2) := by
  decide

/-- The success path of the telemetry upload: with a present truthy body, a
matching secret, coercible fields and a successful commit, exactly one new
reading is appended with the coerced values, the server clock as timestamp
and the next auto-increment id, and that id is returned. -/
lemma api_iot_upload_ok (cfgKey : String) (now : Nat) (st : DB)
    (data : List (String × JVal)) (a b c d e f : Rat)
    (hT : isTruthy (.obj data) = true) (hK : apiKeyOk data cfgKey = true)
    (hC : coerceSix data = .ok (a, b, c, d, e, f)) :
    api_iot_upload cfgKey none now (some data) st =
      (⟨200, [("ok", .jbool true), ("id", .num ((st.nextRid : Int) : Rat))]⟩,
        { st with readings := st.readings ++ [⟨st.nextRid, now, a, b, c, d, e, f⟩],
                  nextRid := st.nextRid + 1 }) := by
  simp [api_iot_upload, hT, hK, hC]

/-- Claim C6: for every telemetry-ingest request, a missing or unparseable
body yields status 400; a body whose api_key field does not equal the
configured shared secret yields status 403 with the reading table unchanged
(no row is ever persisted for a bad secret); and when the persistence write
fails the response is status 500 carrying the exception message, again with
the table unchanged. -/
theorem api_iot_upload_error_spec (cfgKey : String) (persistErr : Option String)
    (now : Nat) (st : DB) :
    (api_iot_upload cfgKey persistErr now none st =
      (⟨400, [("ok", .jbool false), ("error", .jstr "no json")]⟩, st))
    ∧ (∀ data, isTruthy (.obj data) = true → apiKeyOk data cfgKey = false →
        api_iot_upload cfgKey persistErr now (some data) st =
          (⟨403, [("ok", .jbool false), ("error", .jstr "invalid api_key")]⟩, st))
    ∧ (∀ data vals msg, isTruthy (.obj data) = true → apiKeyOk data cfgKey = true →
        coerceSix data = .ok vals → persistErr = some msg →
        api_iot_upload cfgKey persistErr now (some data) st =
          (⟨500, [("ok", .jbool false), ("error", .jstr msg)]⟩, st)) := by
  refine ⟨rfl, ?_, ?_⟩
  · intro data hT hK
    simp [api_iot_upload, hT, hK]
  · intro data vals msg hT hK hC hP
    obtain ⟨a, b, c, d, e, f⟩ := vals
    subst hP
    simp [api_iot_upload, hT, hK, hC]

/-- Witness for claim C6: a request carrying the wrong secret gets 403 and
the store is unchanged. -/
theorem api_iot_upload_error_spec_witness :
    api_iot_upload "secret" none 5 (some [("api_key", JVal.jstr "wrong")]) initDB =
      (⟨403, [("ok", JVal.jbool false), ("error", JVal.jstr "invalid api_key")]⟩, initDB) :=
  (api_iot_upload_error_spec "secret" none 5 initDB).2.1
    [("api_key", JVal.jstr "wrong")] rfl rfl

/-- Claim C7: for every telemetry-ingest request carrying the correct shared
secret whose six fields coerce (a missing field coerces to 0, as the second
conjunct states), exactly one new reading row is persisted holding the six
coerced values, the server-assigned timestamp and the next auto-increment id,
and the response returns that id with ok true. -/
theorem api_iot_upload_success_spec (cfgKey : String) (now : Nat) (st : DB)
    (data : List (String × JVal)) (a b c d e f : Rat)
    (hT : isTruthy (.obj data) = true) (hK : apiKeyOk data cfgKey = true)
    (hC : coerceSix data = .ok (a, b, c, d, e, f)) :
    api_iot_upload cfgKey none now (some data) st =
      (⟨200, [("ok", .jbool true), ("id", .num ((st.nextRid : Int) : Rat))]⟩,
        { st with readings := st.readings ++ [⟨st.nextRid, now, a, b, c, d, e, f⟩],
                  nextRid := st.nextRid + 1 })
    ∧ (∀ k, lookupJ data k = none → coerceField data k = .ok 0) := by
  refine ⟨api_iot_upload_ok cfgKey now st data a b c d e f hT hK hC, ?_⟩
  intro k hk
  simp [coerceField, hk]

/-- Witness for claim C7: an upload with the right key and two of the six
fields present persists one row whose missing fields are zero. -/
theorem api_iot_upload_success_spec_witness :
    api_iot_upload "key1" none 9
      (some [("api_key", JVal.jstr "key1"), ("cap_soil_pct", JVal.num 12),
             ("temperature_c", JVal.num 25)]) initDB =
      (⟨200, [("ok", JVal.jbool true), ("id", JVal.num ((initDB.nextRid : Int) : Rat))]⟩,
        { initDB with
          readings := initDB.readings ++ [⟨initDB.nextRid, 9, 12, 0, 0, 0, 25, 0⟩],
          nextRid := initDB.nextRid + 1 }) :=
  (api_iot_upload_success_spec "key1" 9 initDB
    [("api_key", JVal.jstr "key1"), ("cap_soil_pct", JVal.num 12),
     ("temperature_c", JVal.num 25)] 12 0 0 0 25 0 rfl rfl rfl).1

/-- Claim C8: the latest-telemetry endpoint rejects an unauthenticated
request through the guard; for an authenticated one it returns 404 when the
reading table is empty, and otherwise exactly the six sensor fields and the
ISO-rendered timestamp of the reading whose timestamp is maximal; in
particular immediately after one successful upload into an empty table it
returns that row's fields. -/
theorem api_latest_iot_spec (st : DB) (p : Principal) (r : IoTReading) :
    (api_latest_iot none st = .authRedirect)
    ∧ (st.readings = [] → api_latest_iot (some p) st =
        .jresp ⟨404, [("ok", .jbool false), ("error", .jstr "no readings")]⟩)
    ∧ (r ∈ st.readings → (∀ x ∈ st.readings, x = r ∨ x.timestamp < r.timestamp) →
        api_latest_iot (some p) st = .jresp ⟨200, iotFields r⟩)
    ∧ (∀ cfgKey now data a b c d e f, st.readings = [] →
        isTruthy (.obj data) = true → apiKeyOk data cfgKey = true →
        coerceSix data = .ok (a, b, c, d, e, f) →
        api_latest_iot (some p) (api_iot_upload cfgKey none now (some data) st).2 =
          .jresp ⟨200, iotFields ⟨st.nextRid, now, a, b, c, d, e, f⟩⟩) := by
  refine ⟨rfl, ?_, ?_, ?_⟩
  · intro h
    simp [api_latest_iot, h, latestReading]
  · intro hm hmax
    simp [api_latest_iot, latestReading_unique_max st.readings r hm hmax]
  · intro cfgKey now data a b c d e f hemp hT hK hC
    rw [api_iot_upload_ok cfgKey now st data a b c d e f hT hK hC]
    simp [api_latest_iot, hemp, latestReading]

/-- Witness for claim C8: with no readings stored, an authenticated request
receives 404. -/
theorem api_latest_iot_spec_witness :
    api_latest_iot (some Principal.admin) initDB =
      .jresp ⟨404, [("ok", JVal.jbool false), ("error", JVal.jstr "no readings")]⟩ :=
  (api_latest_iot_spec initDB Principal.admin ⟨0, 0, 0, 0, 0, 0, 0, 0⟩).2.1 rfl

/-- Claim C9 (amended): for every point and polygon, the point NDVI query
returns a null value and the map queries return a placeholder renderable
fragment under every listed provider-failure condition (provider not
initialized, no scene found, auth or network failure during getMapId or
during the point reduction); the polygon statistics query returns null when
the provider is not initialized or no scene is found, but an error raised by
the provider during the polygon statistics reduction propagates out of that
adapter instead of degrading (the unamended claim said it never raises; see
the counterexample theorem). -/
theorem adapters_degrade_spec (pv : Provider) (lat lon : Rat)
    (coords : List (Rat × Rat)) :
    (pv.ee_ok = false →
      get_point_ndvi pv lat lon = (none, "<p>NDVI unavailable (EE/folium missing).</p>")
      ∧ get_true_color_map pv lat lon =
          "<p>True color map unavailable (EE/folium not installed).</p>"
      ∧ get_polygon_ndvi_stats pv coords = .ok none)
    ∧ (pv.folium_ok = false →
      get_point_ndvi pv lat lon = (none, "<p>NDVI unavailable (EE/folium missing).</p>")
      ∧ get_true_color_map pv lat lon =
          "<p>True color map unavailable (EE/folium not installed).</p>")
    ∧ (pv.ee_ok = true → pv.folium_ok = true → pv.scene = none →
      get_point_ndvi pv lat lon = (none, "<p>No Sentinel-2 image.</p>")
      ∧ get_true_color_map pv lat lon = foliumHtml lat lon none
      ∧ get_polygon_ndvi_stats pv coords = .ok none)
    ∧ (∀ err sc, pv.ee_ok = true → pv.folium_ok = true → pv.scene = some sc →
        pv.mapIdResult = .error err →
      get_point_ndvi pv lat lon = (none, "<p>NDVI map error.</p>")
      ∧ get_true_color_map pv lat lon = "<p>True color map error.</p>")
    ∧ (∀ tile err sc, pv.ee_ok = true → pv.folium_ok = true → pv.scene = some sc →
        pv.mapIdResult = .ok tile → pv.pointMeanResult = .error err →
      get_point_ndvi pv lat lon = (none, foliumHtml lat lon (some tile)))
    ∧ (∀ err sc, pv.ee_ok = true → pv.scene = some sc →
        pv.polyStatsResult = .error err →
      get_polygon_ndvi_stats pv coords = .error err) := by
  refine ⟨?_, ?_, ?_, ?_, ?_, ?_⟩
  · intro h
    exact ⟨by simp [get_point_ndvi, h], by simp [get_true_color_map, h],
      by simp [get_polygon_ndvi_stats, h]⟩
  · intro h
    exact ⟨by simp [get_point_ndvi, h], by simp [get_true_color_map, h]⟩
  · intro h1 h2 h3
    exact ⟨by simp [get_point_ndvi, h1, h2, h3], by simp [get_true_color_map, h1, h2, h3],
      by simp [get_polygon_ndvi_stats, h1, h3]⟩
  · intro err sc h1 h2 h3 h4
    exact ⟨by simp [get_point_ndvi, h1, h2, h3, h4],
      by simp [get_true_color_map, h1, h2, h3, h4]⟩
  · intro tile err sc h1 h2 h3 h4 h5
    simp [get_point_ndvi, h1, h2, h3, h4, h5]
  · intro err sc h1 h2 h3
    simp [get_polygon_ndvi_stats, h1, h2, h3]

/-- Witness for claim C9: with the provider uninitialized, the point query
returns a null value with the unavailability placeholder. -/
theorem adapters_degrade_spec_witness :
    get_point_ndvi ⟨false, false, none, Except.error "e", Except.error "e",
        Except.error "e"⟩ 1 2 =
      (none, "<p>NDVI unavailable (EE/folium missing).</p>") :=
  ((adapters_degrade_spec ⟨false, false, none, Except.error "e", Except.error "e",
      Except.error "e"⟩ 1 2 []).1 rfl).1

/-- Counterexample refuting the unamended claim C9: with the provider
initialized and a scene found, a network error raised during the polygon
statistics reduction propagates out of get_polygon_ndvi_stats instead of
yielding the null result the claim requires. -/
theorem polygon_stats_raise_counterexample :
    get_polygon_ndvi_stats
      ⟨true, true, some 1, Except.ok "tile", Except.ok (some 0),
        Except.error "network error"⟩ [(0, 0), (0, 1), (1, 0)] =
      Except.error "network error" := rfl

/-- Claim C10: the session user-loading callback returns the User row whose
id equals the integer value of the session token when the token parses as an
integer and such a row exists; for every other token, including one that
parses to an absent id and the synthetic token "admin", it returns None (so
the admin principal is never reconstructed from the session store), and being
a total function it never raises. -/
theorem load_user_spec (st : DB) (uid : String) :
    (pyInt? uid = none → load_user st uid = none)
    ∧ (∀ (n : Int) (u : User), pyInt? uid = some n → (st.users.map User.id).Nodup →
        u ∈ st.users → (u.id : Int) = n → load_user st uid = some u)
    ∧ (∀ n : Int, pyInt? uid = some n → (∀ u ∈ st.users, (u.id : Int) ≠ n) →
        load_user st uid = none)
    ∧ load_user st "admin" = none := by
  refine ⟨?_, ?_, ?_, rfl⟩
  · intro h
    simp [load_user, h]
  · intro n u hn hN hu hid
    have hNi : (st.users.map (fun x : User => (x.id : Int))).Nodup := by
      have hcomp : (fun x : User => (x.id : Int)) = (fun m : Nat => (m : Int)) ∘ User.id :=
        rfl
      rw [hcomp, ← List.map_map]
      exact hN.map (fun m1 m2 hm => by exact_mod_cast hm)
    have hfind := find?_key_eq_some (fun x : User => (x.id : Int)) n st.users hNi u hu hid
    simp only [load_user, hn]
    exact hfind
  · intro n hn hne
    have hnone : st.users.find? (fun u => ((u.id : Int) == n)) = none := by
      rw [List.find?_eq_none]
      intro x hx
      simp [hne x hx]
    simp [load_user, hn, hnone]

/-- Witness for claim C10: a numeric session token resolves to the stored row
with that id. -/
theorem load_user_spec_witness :
    load_user ⟨[⟨7, "carol", ⟨0, "pw"⟩, "farmer"⟩], [], 8, 1⟩ "7" =
      some ⟨7, "carol", ⟨0, "pw"⟩, "farmer"⟩ :=
  (load_user_spec ⟨[⟨7, "carol", ⟨0, "pw"⟩, "farmer"⟩], [], 8, 1⟩ "7").2.1 7
    ⟨7, "carol", ⟨0, "pw"⟩, "farmer"⟩ (by decide) (by decide) (by decide) (by decide)
